import Mathlib

/-
  Verification development for the xen fragment consisting of
  tools/include/xenforeignmemory.h (the public interface of the foreign
  memory mapping library) and tools/xenstore/xs_tdb_dump.c (the TDB record
  dump diagnostic utility).

  The foreign-memory library implementation (libs/foreignmemory core and OS
  backends) is not part of the source fragment; only its public header with
  the documented contracts is.  The operational model below is therefore
  modelled from the specification and from the contracts stated in the
  header comments.  The dump utility is embedded directly from its C source.
-/

namespace Xen

/-- Error kinds of the foreign memory interface, following the error
taxonomy of the specification (OpenFailure, InvalidHandle,
UnsupportedPlacement, InvalidMapping, InvalidResource, UnknownResource,
DomainMismatch). -/
inductive ErrKind where
  | openFailure
  | invalidHandle
  | unsupportedPlacement
  | invalidMapping
  | invalidResource
  | unknownResource
  | domainMismatch
deriving DecidableEq

/-- A tracked Mapping: local address, page count, target domain, protection
and the per-page residency (which pages of the linear range actually
mapped).  Modelled from the spec: a Mapping "describes a local virtual
address range, a page count, a target domain identifier, and the
protection/flags used to create it". -/
structure Mapping where
  addr : Nat
  count : Nat
  dom : Nat
  prot : Nat
  resident : List Bool
deriving DecidableEq

/-- A mapped resource: handle id, domain, resource type, resource id, base
frame, number of frames and the local address.  Modelled from the spec:
a ResourceHandle "identifies a single mapped resource (type, id, frame
range, local address, size in bytes)". -/
structure Resource where
  rid : Nat
  dom : Nat
  rtype : Nat
  rsrcId : Nat
  frame : Nat
  nrFrames : Nat
  addr : Nat
deriving DecidableEq

/-- The process-local state behind one xenforeignmemory_handle: whether the
handle is open, the domain it has been restricted to (if any), the tracked
page Mappings and mapped Resources, and fresh-address / fresh-resource-id
counters standing for the OS address-space allocator.  Modelled from the
spec: a Handle is "an opaque, process-local context representing an open
connection to the mapping backend". -/
structure FmemState where
  isOpen : Bool
  restrictedTo : Option Nat
  mappings : List Mapping
  resources : List Resource
  nextAddr : Nat
  nextRid : Nat
deriving DecidableEq

/-- Outcome of a page-map call: NULL without having attempted the mapping
(complete failure, per-page error array contents invalid), NULL after
rolling a failed all-or-nothing attempt back (carrying the errno of the
first observed failure), or a non-NULL local address together with the
per-page error array when one was supplied. -/
inductive MapOutcome where
  | notAttempted (e : ErrKind)
  | rolledBack (errno : Nat)
  | mapped (addr : Nat) (err : Option (List Nat))
deriving DecidableEq

/-- Domain check applied by every call that names a domain: when the handle
has been restricted, only the restricted domain passes.  Modelled from the
spec: restrict "binds the Handle permanently to operate only against
domain for all subsequent Page Mapper / Resource Mapper calls". -/
def domCheck (s : FmemState) (dom : Nat) : Bool :=
  match s.restrictedTo with
  | none => true
  | some d => dom == d

/-- Modelled from the spec: xenforeignmemory_open (implementation not in
the fragment).  Establishes the backend connection; fails when the backend
is unreachable or rights are missing (the ok oracle). -/
def xenforeignmemory_open (ok : Bool) : Option FmemState :=
  if ok then some ⟨true, none, [], [], 4096, 1⟩ else none

/-- Modelled from the spec: xenforeignmemory_close (implementation not in
the fragment).  Releases the handle; a second close is a use-after-close
error. -/
def xenforeignmemory_close (s : FmemState) : FmemState × Except ErrKind Unit :=
  if s.isOpen then ({ s with isOpen := false }, Except.ok ())
  else (s, Except.error ErrKind.invalidHandle)

/-- Modelled from the spec: xenforeignmemory_map (implementation not in the
fragment).  arr lists the foreign frames, outcomes is the backend verdict
per page (0 success, otherwise an errno), withErr says whether the caller
supplied a per-page error array.  With an error array the call may
partially succeed: it returns a non-NULL address and copies the per-page
verdicts out, tracking which pages are resident.  Without one it is
all-or-nothing: any page failure is rolled back completely and the errno of
the first failing page is reported; otherwise the whole range is mapped. -/
def xenforeignmemory_map (s : FmemState) (dom : Nat) (prot : Nat)
    (arr : List Nat) (outcomes : List Nat) (withErr : Bool) :
    FmemState × MapOutcome :=
  if s.isOpen = false then (s, MapOutcome.notAttempted ErrKind.invalidHandle)
  else if domCheck s dom = false then (s, MapOutcome.notAttempted ErrKind.domainMismatch)
  else if withErr then
    let m : Mapping :=
      ⟨s.nextAddr, arr.length, dom, prot, outcomes.map (fun e => e == 0)⟩
    ({ s with mappings := m :: s.mappings, nextAddr := s.nextAddr + arr.length + 1 },
      MapOutcome.mapped s.nextAddr (some outcomes))
  else
    match outcomes.find? (fun e => e != 0) with
    | some e => (s, MapOutcome.rolledBack e)
    | none =>
      let m : Mapping :=
        ⟨s.nextAddr, arr.length, dom, prot, List.replicate arr.length true⟩
      ({ s with mappings := m :: s.mappings, nextAddr := s.nextAddr + arr.length + 1 },
        MapOutcome.mapped s.nextAddr none)

/-- Modelled from the spec: xenforeignmemory_map2 (implementation not in
the fragment).  Like xenforeignmemory_map but takes a placement hint
address and mmap-style flags; supported says whether the backend honours
the requested placement/flag combination, and an unsupported combination
fails with UnsupportedPlacement instead of being silently ignored. -/
def xenforeignmemory_map2 (s : FmemState) (dom : Nat) (addrHint : Option Nat)
    (prot flags : Nat) (arr outcomes : List Nat) (withErr supported : Bool) :
    FmemState × MapOutcome :=
  if s.isOpen = false then (s, MapOutcome.notAttempted ErrKind.invalidHandle)
  else if domCheck s dom = false then (s, MapOutcome.notAttempted ErrKind.domainMismatch)
  else if supported = false then (s, MapOutcome.notAttempted ErrKind.unsupportedPlacement)
  else xenforeignmemory_map s dom prot arr outcomes withErr

/-- A tracked Mapping matches an unmap request when both the address and
the page count agree exactly. -/
def matchesMapping (addr pages : Nat) (m : Mapping) : Bool :=
  m.addr == addr && m.count == pages

/-- Modelled from the spec: xenforeignmemory_unmap (implementation not in
the fragment).  Must be called with the exact address and page count of the
original map call; fails with InvalidMapping when no such Mapping is
tracked. -/
def xenforeignmemory_unmap (s : FmemState) (addr : Nat) (pages : Nat) :
    FmemState × Except ErrKind Unit :=
  if s.isOpen = false then (s, Except.error ErrKind.invalidHandle)
  else if s.mappings.any (matchesMapping addr pages) then
    ({ s with mappings := s.mappings.filter (fun m => !(matchesMapping addr pages m)) },
      Except.ok ())
  else (s, Except.error ErrKind.invalidMapping)

/-- Modelled from the spec: xenforeignmemory_restrict (implementation not
in the fragment).  One-way narrowing: an unrestricted handle becomes bound
to domid; once bound, the binding is never changed again (re-restricting to
the same domain is a no-op, to a different domain an error). -/
def xenforeignmemory_restrict (s : FmemState) (domid : Nat) :
    FmemState × Except ErrKind Unit :=
  if s.isOpen = false then (s, Except.error ErrKind.invalidHandle)
  else
    match s.restrictedTo with
    | none => ({ s with restrictedTo := some domid }, Except.ok ())
    | some d =>
      if d == domid then (s, Except.ok ())
      else (s, Except.error ErrKind.domainMismatch)

/-- Modelled from the spec: xenforeignmemory_map_resource (implementation
not in the fragment).  Maps nr_frames frames starting at frame of the named
resource as one contiguous local range; paddr is the optional placement
hint (none means no preference) and the address actually chosen is handed
back with the resource handle; backendOk is the backend verdict for the
whole resource.  The operation is atomic: either the full range is mapped
or nothing changes. -/
def xenforeignmemory_map_resource (s : FmemState)
    (domid rtype rsrcId frame nrFrames : Nat) (paddr : Option Nat)
    (backendOk : Bool) : FmemState × Except ErrKind (Resource × Nat) :=
  if s.isOpen = false then (s, Except.error ErrKind.invalidHandle)
  else if domCheck s domid = false then (s, Except.error ErrKind.domainMismatch)
  else if backendOk = false then (s, Except.error ErrKind.unknownResource)
  else
    let a := paddr.getD s.nextAddr
    let r : Resource := ⟨s.nextRid, domid, rtype, rsrcId, frame, nrFrames, a⟩
    ({ s with
        resources := r :: s.resources,
        nextAddr := s.nextAddr + nrFrames + 1,
        nextRid := s.nextRid + 1 },
      Except.ok (r, a))

/-- Modelled from the spec: xenforeignmemory_unmap_resource (implementation
not in the fragment).  Releases an acquired resource; fails with
InvalidResource when the handle is unknown or already released. -/
def xenforeignmemory_unmap_resource (s : FmemState) (rid : Nat) :
    FmemState × Except ErrKind Unit :=
  if s.isOpen = false then (s, Except.error ErrKind.invalidHandle)
  else if s.resources.any (fun r => r.rid == rid) then
    ({ s with resources := s.resources.filter (fun r => !(r.rid == rid)) },
      Except.ok ())
  else (s, Except.error ErrKind.invalidResource)

/-- Modelled from the spec: xenforeignmemory_resource_size (implementation
not in the fragment).  Queries the size of a named resource; fails with
UnknownResource when the (type, id) pair is not recognized; known and size
are the backend verdict. -/
def xenforeignmemory_resource_size (s : FmemState) (domid rtype rsrcId : Nat)
    (known : Bool) (size : Nat) : FmemState × Except ErrKind Nat :=
  if s.isOpen = false then (s, Except.error ErrKind.invalidHandle)
  else if domCheck s domid = false then (s, Except.error ErrKind.domainMismatch)
  else if known = false then (s, Except.error ErrKind.unknownResource)
  else (s, Except.ok size)

/-- One call against a handle, with the backend verdicts baked in, used to
quantify over arbitrary sequences of subsequent operations. -/
inductive Op where
  | opMap (dom prot : Nat) (arr outcomes : List Nat) (withErr : Bool)
  | opMap2 (dom : Nat) (addrHint : Option Nat) (prot flags : Nat)
      (arr outcomes : List Nat) (withErr supported : Bool)
  | opUnmap (addr pages : Nat)
  | opRestrict (domid : Nat)
  | opMapResource (domid rtype rsrcId frame nrFrames : Nat)
      (paddr : Option Nat) (backendOk : Bool)
  | opUnmapResource (rid : Nat)
  | opResourceSize (domid rtype rsrcId : Nat) (known : Bool) (size : Nat)
  | opClose

/-- State transition of one call (the outcome is dropped). -/
def step (s : FmemState) : Op → FmemState
  | Op.opMap dom prot arr outcomes we =>
      (xenforeignmemory_map s dom prot arr outcomes we).1
  | Op.opMap2 dom addrHint prot flags arr outcomes we sup =>
      (xenforeignmemory_map2 s dom addrHint prot flags arr outcomes we sup).1
  | Op.opUnmap addr pages => (xenforeignmemory_unmap s addr pages).1
  | Op.opRestrict domid => (xenforeignmemory_restrict s domid).1
  | Op.opMapResource domid rtype rsrcId frame nrFrames paddr bok =>
      (xenforeignmemory_map_resource s domid rtype rsrcId frame nrFrames paddr bok).1
  | Op.opUnmapResource rid => (xenforeignmemory_unmap_resource s rid).1
  | Op.opResourceSize domid rtype rsrcId known size =>
      (xenforeignmemory_resource_size s domid rtype rsrcId known size).1
  | Op.opClose => (xenforeignmemory_close s).1

/-- Run a sequence of calls. -/
def runOps (s : FmemState) (ops : List Op) : FmemState :=
  ops.foldl step s

/-- A freshly opened, unrestricted handle state, used as concrete input. -/
def s0 : FmemState := ⟨true, none, [], [], 4096, 1⟩

/-- A closed handle state, used as concrete input. -/
def sClosed : FmemState := ⟨false, none, [], [], 4096, 1⟩

/-- A concrete handle state reached by restricting a fresh handle to domain
5 and then performing one page-map call against domain 5. -/
def s3 : FmemState :=
  runOps (xenforeignmemory_restrict s0 5).1 [Op.opMap 5 0 [3] [0] false]

end Xen

namespace XsTdbDump

/-- Modelled from the spec: sizeof(struct xs_tdb_record_hdr), the record
header {permission_count (uint32), data_length (uint32), child_length
(uint32)}; the struct definition lives in xenstore_lib.h which is not part
of the fragment.  Three 32-bit fields give 12 bytes. -/
def sizeof_hdr : Nat := 12

/-- Modelled from the spec: sizeof(struct xs_permissions), one permission
entry (a 32-bit permission kind and a 32-bit domain id); the struct
definition lives outside the fragment.  Two 32-bit fields give 8 bytes. -/
def sizeof_xs_permissions : Nat := 8

/-- The fields of a fetched record header, as read by xs_tdb_dump.c
(uint32_t num_perms, datalen, childlen). -/
structure xs_tdb_record_hdr where
  num_perms : Nat
  datalen : Nat
  childlen : Nat
deriving DecidableEq

/-- total_size from xs_tdb_dump.c: sizeof(*hdr) + hdr->num_perms *
sizeof(struct xs_permissions) + hdr->datalen + hdr->childlen, computed in
size_t and truncated to the uint32_t return type, hence taken modulo
2^32. -/
def total_size (hdr : xs_tdb_record_hdr) : Nat :=
  (sizeof_hdr + hdr.num_perms * sizeof_xs_permissions
    + hdr.datalen + hdr.childlen) % 2 ^ 32

/-- The untruncated byte count the record layout calls for: header,
num_perms permission entries, datalen data bytes and childlen bytes of
child names. -/
def true_record_size (hdr : xs_tdb_record_hdr) : Nat :=
  sizeof_hdr + hdr.num_perms * sizeof_xs_permissions + hdr.datalen + hdr.childlen

/-- How the main loop of xs_tdb_dump.c treats one fetched record. -/
inductive DumpResult where
  | badTruncated
  | badLength
  | printed
deriving DecidableEq

/-- The per-record classification of the main loop of xs_tdb_dump.c: a
record shorter than the header is "BAD truncated", one whose size differs
from total_size is "BAD length", and otherwise its permissions, data and
children are printed.  dsize is data.dsize, hdr the header read from
data.dptr. -/
def dump_record (dsize : Nat) (hdr : xs_tdb_record_hdr) : DumpResult :=
  if dsize < sizeof_hdr then DumpResult.badTruncated
  else if dsize ≠ total_size hdr then DumpResult.badLength
  else DumpResult.printed

end XsTdbDump

namespace Xen

theorem domCheck_restricted_ne (s : FmemState) (D dom : Nat)
    (h : s.restrictedTo = some D) (hne : dom ≠ D) : domCheck s dom = false := by
  simp [domCheck, h, hne]

theorem domCheck_restricted_self (s : FmemState) (D : Nat)
    (h : s.restrictedTo = some D) : domCheck s D = true := by
  simp [domCheck, h]

theorem step_keeps_restriction (s : FmemState) (D : Nat) (op : Op)
    (h : s.restrictedTo = some D) : (step s op).restrictedTo = some D := by
  cases op <;>
    simp only [step, xenforeignmemory_map, xenforeignmemory_map2,
      xenforeignmemory_unmap, xenforeignmemory_restrict,
      xenforeignmemory_map_resource, xenforeignmemory_unmap_resource,
      xenforeignmemory_resource_size, xenforeignmemory_close] <;>
    (repeat' split) <;> simp_all

theorem runOps_keeps_restriction (ops : List Op) (s : FmemState) (D : Nat)
    (h : s.restrictedTo = some D) : (runOps s ops).restrictedTo = some D := by
  induction ops generalizing s with
  | nil => simpa [runOps] using h
  | cons op rest ih =>
    simpa [runOps, List.foldl] using ih (step s op) (step_keeps_restriction s D op h)

theorem find?_nonzero_replicate_zero (n : Nat) :
    (List.replicate n 0).find? (fun e => e != 0) = none := by
  induction n with
  | zero => rfl
  | succ n ih => simpa [List.replicate_succ, List.find?] using ih

end Xen

namespace Xen

/-- C1: when the per-page error array is omitted, the page-map operation is
all-or-nothing: if any page fails (the backend per-page verdict list has a
non-zero entry, e being the first such errno), the call returns NULL with
errno e, and the handle state is unchanged — every page the attempt had
mapped has been unmapped again, so no partially-mapped pages from the
failed call remain visible. -/
theorem map_no_err_all_or_nothing (s : FmemState) (dom prot : Nat)
    (arr outcomes : List Nat) (e : Nat)
    (hopen : s.isOpen = true) (hdom : domCheck s dom = true)
    (hfail : outcomes.find? (fun x => x != 0) = some e) :
    xenforeignmemory_map s dom prot arr outcomes false
      = (s, MapOutcome.rolledBack e) := by
  simp [xenforeignmemory_map, hopen, hdom, hfail]

/-- Witness for C1 at a concrete input: page 1 fails with errno 13. -/
theorem map_no_err_all_or_nothing_witness :
    s0.isOpen = true ∧ domCheck s0 2 = true ∧
    [0, 13, 22].find? (fun x => x != 0) = some 13 ∧
    xenforeignmemory_map s0 2 3 [10, 11, 12] [0, 13, 22] false
      = (s0, MapOutcome.rolledBack 13) :=
  ⟨by decide, by decide, by decide,
    map_no_err_all_or_nothing s0 2 3 [10, 11, 12] [0, 13, 22] 13
      (by decide) (by decide) (by decide)⟩

/-- C2: when the per-page error array is supplied, the page-map operation
may partially succeed: on a dispatchable handle it returns a non-NULL
address with every element of the error array set to the per-page verdict
(0 success, otherwise an errno), and the successful pages stay resident
with no global rollback; a NULL return happens only when the operation
could not even be attempted (closed handle or restricted-domain mismatch),
in which case the state is unchanged and no error array is produced. -/
theorem map_with_err_no_rollback (s t : FmemState) (dom prot : Nat)
    (arr outcomes : List Nat)
    (hopen : s.isOpen = true) (hdom : domCheck s dom = true)
    (ht : t.isOpen = false ∨ domCheck t dom = false) :
    (xenforeignmemory_map s dom prot arr outcomes true).2
      = MapOutcome.mapped s.nextAddr (some outcomes) ∧
    (xenforeignmemory_map s dom prot arr outcomes true).1.mappings
      = ⟨s.nextAddr, arr.length, dom, prot, outcomes.map (fun x => x == 0)⟩
          :: s.mappings ∧
    (xenforeignmemory_map t dom prot arr outcomes true).1 = t ∧
    ((xenforeignmemory_map t dom prot arr outcomes true).2
        = MapOutcome.notAttempted ErrKind.invalidHandle ∨
      (xenforeignmemory_map t dom prot arr outcomes true).2
        = MapOutcome.notAttempted ErrKind.domainMismatch) := by
  refine ⟨by simp [xenforeignmemory_map, hopen, hdom],
          by simp [xenforeignmemory_map, hopen, hdom], ?_⟩
  rcases ht with ht | ht
  · simp [xenforeignmemory_map, ht]
  · by_cases ho : t.isOpen = false
    · simp [xenforeignmemory_map, ho]
    · have ho2 : t.isOpen = true := by simpa using ho
      simp [xenforeignmemory_map, ho2, ht]

/-- Witness for C2 at a concrete input: one page, failing with errno 5, on
an open handle, and the not-attempted case on a closed handle. -/
theorem map_with_err_no_rollback_witness :
    s0.isOpen = true ∧ domCheck s0 2 = true ∧
    (sClosed.isOpen = false ∨ domCheck sClosed 2 = false) ∧
    ((xenforeignmemory_map s0 2 3 [7] [5] true).2
        = MapOutcome.mapped s0.nextAddr (some [5]) ∧
      (xenforeignmemory_map s0 2 3 [7] [5] true).1.mappings
        = ⟨s0.nextAddr, [7].length, 2, 3, [5].map (fun x => x == 0)⟩
            :: s0.mappings ∧
      (xenforeignmemory_map sClosed 2 3 [7] [5] true).1 = sClosed ∧
      ((xenforeignmemory_map sClosed 2 3 [7] [5] true).2
          = MapOutcome.notAttempted ErrKind.invalidHandle ∨
        (xenforeignmemory_map sClosed 2 3 [7] [5] true).2
          = MapOutcome.notAttempted ErrKind.domainMismatch)) :=
  ⟨by decide, by decide, Or.inl (by decide),
    map_with_err_no_rollback s0 sClosed 2 3 [7] [5]
      (by decide) (by decide) (Or.inl (by decide))⟩

/-- C6: when the per-page error array is supplied and every page maps
successfully (all backend verdicts 0), the call returns a non-NULL address,
every entry of the error array is the success code 0, and the whole range
is resident (fully accessible). -/
theorem map_with_err_all_success (s : FmemState) (dom prot : Nat)
    (arr : List Nat)
    (hopen : s.isOpen = true) (hdom : domCheck s dom = true) :
    (xenforeignmemory_map s dom prot arr (List.replicate arr.length 0) true).2
      = MapOutcome.mapped s.nextAddr (some (List.replicate arr.length 0)) ∧
    (xenforeignmemory_map s dom prot arr (List.replicate arr.length 0) true).1.mappings
      = ⟨s.nextAddr, arr.length, dom, prot, List.replicate arr.length true⟩
          :: s.mappings := by
  constructor <;> simp [xenforeignmemory_map, hopen, hdom, List.map_replicate]

/-- Witness for C6 at a concrete input: two pages, both succeeding. -/
theorem map_with_err_all_success_witness :
    s0.isOpen = true ∧ domCheck s0 2 = true ∧
    ((xenforeignmemory_map s0 2 3 [7, 8] (List.replicate [7, 8].length 0) true).2
        = MapOutcome.mapped s0.nextAddr (some (List.replicate [7, 8].length 0)) ∧
      (xenforeignmemory_map s0 2 3 [7, 8] (List.replicate [7, 8].length 0) true).1.mappings
        = ⟨s0.nextAddr, [7, 8].length, 2, 3, List.replicate [7, 8].length true⟩
            :: s0.mappings) :=
  ⟨by decide, by decide,
    map_with_err_all_success s0 2 3 [7, 8] (by decide) (by decide)⟩

/-- C7: the placement-hint map variant fails with UnsupportedPlacement,
leaving the state unchanged, when the backend does not support the
requested placement/flags combination, instead of silently ignoring the
flag and proceeding. -/
theorem map2_unsupported_placement (s : FmemState) (dom : Nat)
    (addrHint : Option Nat) (prot flags : Nat) (arr outcomes : List Nat)
    (we : Bool)
    (hopen : s.isOpen = true) (hdom : domCheck s dom = true) :
    xenforeignmemory_map2 s dom addrHint prot flags arr outcomes we false
      = (s, MapOutcome.notAttempted ErrKind.unsupportedPlacement) := by
  simp [xenforeignmemory_map2, hopen, hdom]

/-- Witness for C7 at a concrete input. -/
theorem map2_unsupported_placement_witness :
    s0.isOpen = true ∧ domCheck s0 2 = true ∧
    xenforeignmemory_map2 s0 2 (some 8192) 3 1 [7] [0] true false
      = (s0, MapOutcome.notAttempted ErrKind.unsupportedPlacement) :=
  ⟨by decide, by decide,
    map2_unsupported_placement s0 2 (some 8192) 3 1 [7] [0] true
      (by decide) (by decide)⟩

/-- C8: closing an open handle succeeds, and a second close of the same
handle is rejected as a use-after-close error instead of succeeding
idempotently. -/
theorem close_twice_rejected (s : FmemState) (hopen : s.isOpen = true) :
    (xenforeignmemory_close s).2 = Except.ok () ∧
    (xenforeignmemory_close (xenforeignmemory_close s).1).2
      = Except.error ErrKind.invalidHandle := by
  constructor <;> simp [xenforeignmemory_close, hopen]

/-- Witness for C8 at a concrete input. -/
theorem close_twice_rejected_witness :
    s0.isOpen = true ∧
    ((xenforeignmemory_close s0).2 = Except.ok () ∧
      (xenforeignmemory_close (xenforeignmemory_close s0).1).2
        = Except.error ErrKind.invalidHandle) :=
  ⟨by decide, close_twice_rejected s0 (by decide)⟩

end Xen

namespace Xen

/-- C3: once restrict(handle, D) succeeds on an open unrestricted handle,
the handle is permanently bound to domain D: after any sequence of further
operations the restriction still reads D (never reversed or widened), every
Page Mapper call (map, map2) and every Resource Mapper call (map_resource,
resource_size) naming a domain other than D fails with DomainMismatch, and
calls naming D still pass the domain check and succeed. -/
theorem restrict_binds_permanently (s s2 : FmemState)
    (D dom prot flags rtype rsrcId frame nrFrames sz : Nat)
    (ops : List Op) (addrHint paddr : Option Nat) (arr outcomes : List Nat)
    (we sup bok known : Bool)
    (hopen : s.isOpen = true) (hfree : s.restrictedTo = none)
    (hs2 : s2 = runOps (xenforeignmemory_restrict s D).1 ops)
    (hopen2 : s2.isOpen = true) (hne : dom ≠ D) :
    (xenforeignmemory_restrict s D).2 = Except.ok () ∧
    s2.restrictedTo = some D ∧
    (xenforeignmemory_map s2 dom prot arr outcomes we).2
      = MapOutcome.notAttempted ErrKind.domainMismatch ∧
    (xenforeignmemory_map2 s2 dom addrHint prot flags arr outcomes we sup).2
      = MapOutcome.notAttempted ErrKind.domainMismatch ∧
    (xenforeignmemory_map_resource s2 dom rtype rsrcId frame nrFrames paddr bok).2
      = Except.error ErrKind.domainMismatch ∧
    (xenforeignmemory_resource_size s2 dom rtype rsrcId known sz).2
      = Except.error ErrKind.domainMismatch ∧
    (xenforeignmemory_map s2 D prot arr outcomes true).2
      = MapOutcome.mapped s2.nextAddr (some outcomes) ∧
    (xenforeignmemory_map_resource s2 D rtype rsrcId frame nrFrames paddr true).2
      = Except.ok (⟨s2.nextRid, D, rtype, rsrcId, frame, nrFrames,
          paddr.getD s2.nextAddr⟩, paddr.getD s2.nextAddr) := by
  have hres : xenforeignmemory_restrict s D
      = ({ s with restrictedTo := some D }, Except.ok ()) := by
    simp [xenforeignmemory_restrict, hopen, hfree]
  have h2 : s2.restrictedTo = some D := by
    rw [hs2, hres]
    exact runOps_keeps_restriction ops _ D rfl
  have hdc : domCheck s2 dom = false := domCheck_restricted_ne s2 D dom h2 hne
  have hdcD : domCheck s2 D = true := domCheck_restricted_self s2 D h2
  refine ⟨by rw [hres], h2, ?_, ?_, ?_, ?_, ?_, ?_⟩ <;>
    simp [xenforeignmemory_map, xenforeignmemory_map2,
      xenforeignmemory_map_resource, xenforeignmemory_resource_size,
      hopen2, hdc, hdcD]

/-- Witness for C3 at a concrete input: handle restricted to domain 5, one
further call executed, then calls naming domain 7 versus domain 5. -/
theorem restrict_binds_permanently_witness :
    s0.isOpen = true ∧ s0.restrictedTo = none ∧
    s3 = runOps (xenforeignmemory_restrict s0 5).1 [Op.opMap 5 0 [3] [0] false] ∧
    s3.isOpen = true ∧ (7 : Nat) ≠ 5 ∧
    ((xenforeignmemory_restrict s0 5).2 = Except.ok () ∧
      s3.restrictedTo = some 5 ∧
      (xenforeignmemory_map s3 7 0 [9] [0] false).2
        = MapOutcome.notAttempted ErrKind.domainMismatch ∧
      (xenforeignmemory_map2 s3 7 none 0 0 [9] [0] false true).2
        = MapOutcome.notAttempted ErrKind.domainMismatch ∧
      (xenforeignmemory_map_resource s3 7 1 2 0 4 none true).2
        = Except.error ErrKind.domainMismatch ∧
      (xenforeignmemory_resource_size s3 7 1 2 true 4096).2
        = Except.error ErrKind.domainMismatch ∧
      (xenforeignmemory_map s3 5 0 [9] [0] true).2
        = MapOutcome.mapped s3.nextAddr (some [0]) ∧
      (xenforeignmemory_map_resource s3 5 1 2 0 4 none true).2
        = Except.ok (⟨s3.nextRid, 5, 1, 2, 0, 4,
            (none : Option Nat).getD s3.nextAddr⟩,
          (none : Option Nat).getD s3.nextAddr)) :=
  ⟨by decide, by decide, rfl, by decide, by decide,
    restrict_binds_permanently s0 s3 5 7 0 0 1 2 0 4 4096
      [Op.opMap 5 0 [3] [0] false] none none [9] [0] false true true true
      (by decide) (by decide) rfl (by decide) (by decide)⟩

/-- C4: map_resource is atomic: with the handle open and the domain check
passing, a backend success maps the entire requested frame range (nr_frames
frames starting at frame) as one contiguous local range whose address is
the placement hint when given and a fresh address otherwise, handing that
address back; a backend failure (or any failure) changes nothing — there is
no per-page partial-success mode. -/
theorem map_resource_atomic (s : FmemState)
    (domid rtype rsrcId frame nrFrames : Nat) (paddr : Option Nat)
    (bok : Bool)
    (hopen : s.isOpen = true) (hdom : domCheck s domid = true) :
    (bok = true →
      xenforeignmemory_map_resource s domid rtype rsrcId frame nrFrames paddr bok
        = ({ s with
              resources := ⟨s.nextRid, domid, rtype, rsrcId, frame, nrFrames,
                paddr.getD s.nextAddr⟩ :: s.resources,
              nextAddr := s.nextAddr + nrFrames + 1,
              nextRid := s.nextRid + 1 },
          Except.ok (⟨s.nextRid, domid, rtype, rsrcId, frame, nrFrames,
            paddr.getD s.nextAddr⟩, paddr.getD s.nextAddr))) ∧
    (bok = false →
      xenforeignmemory_map_resource s domid rtype rsrcId frame nrFrames paddr bok
        = (s, Except.error ErrKind.unknownResource)) ∧
    (∀ (t : FmemState) (ek : ErrKind),
      (xenforeignmemory_map_resource t domid rtype rsrcId frame nrFrames paddr bok).2
        = Except.error ek →
      (xenforeignmemory_map_resource t domid rtype rsrcId frame nrFrames paddr bok).1
        = t) := by
  refine ⟨?_, ?_, ?_⟩
  · intro hb
    simp [xenforeignmemory_map_resource, hopen, hdom, hb]
  · intro hb
    simp [xenforeignmemory_map_resource, hopen, hdom, hb]
  · intro t ek h
    by_cases h1 : t.isOpen = false
    · simp [xenforeignmemory_map_resource, h1]
    · have h1b : t.isOpen = true := by simpa using h1
      by_cases hd : domCheck t domid = false
      · simp [xenforeignmemory_map_resource, h1b, hd]
      · have hdb : domCheck t domid = true := by simpa using hd
        by_cases h3 : bok = false
        · simp [xenforeignmemory_map_resource, h1b, hdb, h3]
        · have h3b : bok = true := by simpa using h3
          exfalso
          simp [xenforeignmemory_map_resource, h1b, hdb, h3b] at h

/-- Witness for C4 at a concrete input: a successful atomic map of 4 frames
with a placement hint. -/
theorem map_resource_atomic_witness :
    s0.isOpen = true ∧ domCheck s0 9 = true ∧
    ((true = true →
      xenforeignmemory_map_resource s0 9 1 2 0 4 (some 8192) true
        = ({ s0 with
              resources := ⟨s0.nextRid, 9, 1, 2, 0, 4,
                (some 8192).getD s0.nextAddr⟩ :: s0.resources,
              nextAddr := s0.nextAddr + 4 + 1,
              nextRid := s0.nextRid + 1 },
          Except.ok (⟨s0.nextRid, 9, 1, 2, 0, 4,
            (some 8192).getD s0.nextAddr⟩, (some 8192).getD s0.nextAddr))) ∧
    (true = false →
      xenforeignmemory_map_resource s0 9 1 2 0 4 (some 8192) true
        = (s0, Except.error ErrKind.unknownResource)) ∧
    (∀ (t : FmemState) (ek : ErrKind),
      (xenforeignmemory_map_resource t 9 1 2 0 4 (some 8192) true).2
        = Except.error ek →
      (xenforeignmemory_map_resource t 9 1 2 0 4 (some 8192) true).1 = t)) :=
  ⟨by decide, by decide,
    map_resource_atomic s0 9 1 2 0 4 (some 8192) true (by decide) (by decide)⟩

end Xen

namespace Xen

/-- C5: for any page count N (the length of the frame list) a successful
all-succeed map of N pages followed by an unmap with the returned address
and the same N succeeds and restores the tracked mappings to their pre-map
state, leaving zero resident pages from that mapping; and an unmap naming
an (address, page count) pair for which no Mapping is tracked fails with
InvalidMapping. -/
theorem map_unmap_roundtrip (s : FmemState) (dom prot addr pages : Nat)
    (arr : List Nat)
    (hopen : s.isOpen = true) (hdom : domCheck s dom = true)
    (hfresh : ∀ m ∈ s.mappings, m.addr < s.nextAddr)
    (huntracked : s.mappings.any (matchesMapping addr pages) = false) :
    (xenforeignmemory_map s dom prot arr (List.replicate arr.length 0) false).2
      = MapOutcome.mapped s.nextAddr none ∧
    (xenforeignmemory_unmap
        (xenforeignmemory_map s dom prot arr (List.replicate arr.length 0) false).1
        s.nextAddr arr.length).2 = Except.ok () ∧
    (xenforeignmemory_unmap
        (xenforeignmemory_map s dom prot arr (List.replicate arr.length 0) false).1
        s.nextAddr arr.length).1.mappings = s.mappings ∧
    (xenforeignmemory_unmap s addr pages).2 = Except.error ErrKind.invalidMapping := by
  have hmap : xenforeignmemory_map s dom prot arr (List.replicate arr.length 0) false
      = ({ s with
            mappings := ⟨s.nextAddr, arr.length, dom, prot,
              List.replicate arr.length true⟩ :: s.mappings,
            nextAddr := s.nextAddr + arr.length + 1 },
        MapOutcome.mapped s.nextAddr none) := by
    simp [xenforeignmemory_map, hopen, hdom, find?_nonzero_replicate_zero]
  have hm : matchesMapping s.nextAddr arr.length
      ⟨s.nextAddr, arr.length, dom, prot, List.replicate arr.length true⟩ = true := by
    simp [matchesMapping]
  have hkeep : ∀ m ∈ s.mappings,
      (!(matchesMapping s.nextAddr arr.length m)) = true := by
    intro m hmem
    have hlt := hfresh m hmem
    have hne : (m.addr == s.nextAddr) = false := by
      simp only [beq_eq_false_iff_ne]
      omega
    simp [matchesMapping, hne]
  refine ⟨by rw [hmap], ?_, ?_, ?_⟩
  · rw [hmap]
    simp [xenforeignmemory_unmap, hopen, hm]
  · rw [hmap]
    simp [xenforeignmemory_unmap, hopen, hm, List.filter_cons]
    intro m hmem
    simpa using hkeep m hmem
  · simp [xenforeignmemory_unmap, hopen, huntracked]

/-- Witness for C5 at a concrete input: the 4-page scenario of the spec
(frames 10..13) on a fresh handle, and an unmap of an untracked pair. -/
theorem map_unmap_roundtrip_witness :
    s0.isOpen = true ∧ domCheck s0 2 = true ∧
    (∀ m ∈ s0.mappings, m.addr < s0.nextAddr) ∧
    s0.mappings.any (matchesMapping 9999 4) = false ∧
    ((xenforeignmemory_map s0 2 3 [10, 11, 12, 13]
        (List.replicate [10, 11, 12, 13].length 0) false).2
      = MapOutcome.mapped s0.nextAddr none ∧
    (xenforeignmemory_unmap
        (xenforeignmemory_map s0 2 3 [10, 11, 12, 13]
          (List.replicate [10, 11, 12, 13].length 0) false).1
        s0.nextAddr [10, 11, 12, 13].length).2 = Except.ok () ∧
    (xenforeignmemory_unmap
        (xenforeignmemory_map s0 2 3 [10, 11, 12, 13]
          (List.replicate [10, 11, 12, 13].length 0) false).1
        s0.nextAddr [10, 11, 12, 13].length).1.mappings = s0.mappings ∧
    (xenforeignmemory_unmap s0 9999 4).2 = Except.error ErrKind.invalidMapping) :=
  ⟨by decide, by decide, by decide, by decide,
    map_unmap_roundtrip s0 2 3 9999 4 [10, 11, 12, 13]
      (by decide) (by decide) (by decide) (by decide)⟩

end Xen

namespace XsTdbDump

/-- C9: as long as the record layout sum does not overflow 32 bits, the
dump utility prints a fetched record exactly when its byte length equals
header size + num_perms permission entries + datalen + childlen; a record
shorter than the header is reported BAD truncated, and any other length is
reported as a BAD length, with no contents printed in either bad case. -/
theorem dump_record_classification (dsize : Nat) (hdr : xs_tdb_record_hdr)
    (hnw : true_record_size hdr < 2 ^ 32) :
    (dump_record dsize hdr = DumpResult.printed ↔
      dsize = true_record_size hdr) ∧
    (dump_record dsize hdr = DumpResult.badTruncated ↔ dsize < sizeof_hdr) ∧
    (dump_record dsize hdr = DumpResult.badLength ↔
      (sizeof_hdr ≤ dsize ∧ dsize ≠ true_record_size hdr)) := by
  have htot : total_size hdr = true_record_size hdr := Nat.mod_eq_of_lt hnw
  have hge : sizeof_hdr ≤ true_record_size hdr := by
    unfold true_record_size
    omega
  rw [dump_record, htot]
  by_cases h1 : dsize < sizeof_hdr
  · refine ⟨?_, ?_, ?_⟩ <;> simp [h1] <;> omega
  · by_cases h2 : dsize = true_record_size hdr
    · subst h2
      refine ⟨?_, ?_, ?_⟩ <;> simp [h1] <;> try omega
    · refine ⟨?_, ?_, ?_⟩ <;> simp [h1, h2] <;> try omega

/-- Witness for C9 at a concrete input: a record with 2 permissions, 5 data
bytes and 4 child bytes, 37 bytes long. -/
theorem dump_record_classification_witness :
    true_record_size ⟨2, 5, 4⟩ < 2 ^ 32 ∧
    ((dump_record 37 ⟨2, 5, 4⟩ = DumpResult.printed ↔
        (37 : Nat) = true_record_size ⟨2, 5, 4⟩) ∧
      (dump_record 37 ⟨2, 5, 4⟩ = DumpResult.badTruncated ↔
        (37 : Nat) < sizeof_hdr) ∧
      (dump_record 37 ⟨2, 5, 4⟩ = DumpResult.badLength ↔
        (sizeof_hdr ≤ 37 ∧ (37 : Nat) ≠ true_record_size ⟨2, 5, 4⟩))) :=
  ⟨by decide, dump_record_classification 37 ⟨2, 5, 4⟩ (by decide)⟩

/-- C10: total_size computes sizeof(header) + num_perms *
sizeof(xs_permissions) + datalen + childlen modulo 2^32, and consequently
the length check accepts, for some header whose untruncated sum exceeds
2^32 - 1, a record length strictly smaller than that sum (here num_perms =
2^29 makes a 12-byte record pass as well-formed). -/
theorem total_size_wraps_mod32 :
    (∀ hdr : xs_tdb_record_hdr,
      total_size hdr = true_record_size hdr % 2 ^ 32) ∧
    (∃ hdr : xs_tdb_record_hdr, ∃ dsize : Nat,
      hdr.num_perms < 2 ^ 32 ∧ hdr.datalen < 2 ^ 32 ∧ hdr.childlen < 2 ^ 32 ∧
      2 ^ 32 ≤ true_record_size hdr ∧
      dsize < true_record_size hdr ∧
      dump_record dsize hdr = DumpResult.printed) := by
  constructor
  · intro hdr
    rfl
  · exact ⟨⟨536870912, 0, 0⟩, 12, by decide, by decide, by decide,
      by decide, by decide, by decide⟩

end XsTdbDump
